import Mathlib

set_option autoImplicit false

/-
Verification of the Amazon FreeRTOS HTTPS client
(libraries/freertos_plus/standard/https/src/iot_https_client.c) against its
natural-language specification.  The C functions are shallowly embedded as
Lean functions: byte buffers become offsets into a memory modelled as
`Nat → Nat`, pointers become `Option`-wrapped values (with `none` for NULL),
machine integers become `Nat`/`Int`, and the external collaborators (the
transport's `send`/`recv` vector and the consumed streaming http-parser) are
represented by explicit traces of their observable interactions.
-/

/-- Return codes of the library (IotHttpsReturnCode_t). The numeric values are
irrelevant to every claim; only distinctness matters. -/
inductive IotHttpsReturnCode where
  | IOT_HTTPS_OK
  | IOT_HTTPS_INVALID_PARAMETER
  | IOT_HTTPS_INSUFFICIENT_MEMORY
  | IOT_HTTPS_CONNECTION_ERROR
  | IOT_HTTPS_NETWORK_ERROR
  | IOT_HTTPS_TIMEOUT_ERROR
  | IOT_HTTPS_PARSING_ERROR
  | IOT_HTTPS_MESSAGE_TOO_LARGE
  | IOT_HTTPS_MESSAGE_FINISHED
  | IOT_HTTPS_NOT_FOUND
  | IOT_HTTPS_ASYNC_CANCELLED
  | IOT_HTTPS_ASYNC_SCHEDULING_ERROR
  | IOT_HTTPS_BUSY
  | IOT_HTTPS_INTERNAL_ERROR
  | IOT_HTTPS_NOT_SUPPORTED
  deriving DecidableEq, Repr

open IotHttpsReturnCode

/-- Byte-addressed memory: address to byte value. -/
abbrev Mem := Nat → Nat

/-- memcpy of a literal byte list `src` to destination offset `dst`. -/
def writeList (mem : Mem) (dst : Nat) (src : List Nat) : Mem :=
  fun a => if dst ≤ a ∧ a < dst + src.length then src.getD (a - dst) 0 else mem a

/-- memcpy of `len` bytes taken from the source view `src` to offset `dst`. -/
def writeFun (mem : Mem) (dst : Nat) (src : Nat → Nat) (len : Nat) : Mem :=
  fun a => if dst ≤ a ∧ a < dst + len then src (a - dst) else mem a

/-- The "\r\n" end-of-header-line indicator, as bytes. -/
def HTTPS_END_OF_HEADER_LINES_INDICATOR : List Nat := [13, 10]

/-- Length of "\r\n" (source macro HTTPS_END_OF_HEADER_LINES_INDICATOR_LENGTH). -/
def HTTPS_END_OF_HEADER_LINES_INDICATOR_LENGTH : Nat := 2

/-- The ": " separator between a header field and its value, as bytes. -/
def HTTPS_HEADER_FIELD_SEPARATOR : List Nat := [58, 32]

/-- The reserved tail named by the specification:
`len("Content-Length: 4294967295\r\nConnection: keep-alive\r\n\r\n")`.
This constant follows the spec's words; it is the quantity the claims compare
the code's own accounting against. -/
def RESERVED_TAIL : Nat :=
  ("Content-Length: 4294967295" ++ "\r\n" ++ "Connection: keep-alive" ++ "\r\n" ++ "\r\n").length

theorem RESERVED_TAIL_eq : RESERVED_TAIL = 54 := by decide

/-- Internal request context (_httpsRequest_t).  `pHeaders`, `pHeadersCur` and
`pHeadersEnd` are byte offsets into `mem`; the response pointer of the C struct
is modelled by `hasResponse` (pointer non-NULL) together with `respIsAsync`
(the `isAsync` flag of the pointed-to response). -/
structure _httpsRequest_t where
  pHeaders : Nat
  pHeadersCur : Nat
  pHeadersEnd : Nat
  pBody : Option Nat
  bodyLength : Nat
  cancelled : Bool
  reqFinishedSending : Bool
  hasResponse : Bool
  respIsAsync : Bool
  mem : Mem

/-- Embedding of the static helper `_addHeader` (iot_https_client.c:1520-1555).
`pName` is the NUL-terminated name's content (strlen = list length); `pValue`
with `valueLen` mirrors the `(pValue, len)` pair whose `len` bytes are
memcpy'd. -/
def _addHeader (pHttpsRequest : _httpsRequest_t) (pName : List Nat)
    (pValue : Nat → Nat) (valueLen : Nat) : IotHttpsReturnCode × _httpsRequest_t :=
  let nameLen := pName.length
  let headerFieldSeparatorLen := HTTPS_HEADER_FIELD_SEPARATOR.length
  let additionalLength := nameLen + headerFieldSeparatorLen + valueLen +
    HTTPS_END_OF_HEADER_LINES_INDICATOR_LENGTH
  let possibleLastHeaderAdditionalLength := HTTPS_END_OF_HEADER_LINES_INDICATOR_LENGTH
  if additionalLength + possibleLastHeaderAdditionalLength + pHttpsRequest.pHeadersCur >
      pHttpsRequest.pHeadersEnd then
    (IOT_HTTPS_INSUFFICIENT_MEMORY, pHttpsRequest)
  else
    let m1 := writeList pHttpsRequest.mem pHttpsRequest.pHeadersCur pName
    let c1 := pHttpsRequest.pHeadersCur + nameLen
    let m2 := writeList m1 c1 HTTPS_HEADER_FIELD_SEPARATOR
    let c2 := c1 + headerFieldSeparatorLen
    let m3 := writeFun m2 c2 pValue valueLen
    let c3 := c2 + valueLen
    let m4 := writeList m3 c3 HTTPS_END_OF_HEADER_LINES_INDICATOR
    let c4 := c3 + HTTPS_END_OF_HEADER_LINES_INDICATOR_LENGTH
    (IOT_HTTPS_OK, { pHttpsRequest with pHeadersCur := c4, mem := m4 })

/-- Helper: `_addHeader` succeeds exactly when the name, separator, value,
CRLF and the two reserved bytes fit. -/
theorem _addHeader_ok_iff (req : _httpsRequest_t) (pName : List Nat)
    (pValue : Nat → Nat) (valueLen : Nat) :
    (_addHeader req pName pValue valueLen).1 = IOT_HTTPS_OK ↔
      req.pHeadersCur + pName.length + 2 + valueLen + 2 + 2 ≤ req.pHeadersEnd := by
  simp only [_addHeader, HTTPS_HEADER_FIELD_SEPARATOR,
    HTTPS_END_OF_HEADER_LINES_INDICATOR_LENGTH, List.length_cons, List.length_nil]
  split
  · rename_i h
    exact ⟨fun hc => IotHttpsReturnCode.noConfusion hc, fun hle => absurd hle (by omega)⟩
  · rename_i h
    exact ⟨fun _ => by omega, fun _ => rfl⟩

/-- Helper: cursor and end of the header region after a successful
`_addHeader`. -/
theorem _addHeader_cursor (req : _httpsRequest_t) (pName : List Nat)
    (pValue : Nat → Nat) (valueLen : Nat)
    (h : req.pHeadersCur + pName.length + 2 + valueLen + 2 + 2 ≤ req.pHeadersEnd) :
    (_addHeader req pName pValue valueLen).2.pHeadersCur =
      req.pHeadersCur + pName.length + 2 + valueLen + 2 ∧
    (_addHeader req pName pValue valueLen).2.pHeadersEnd = req.pHeadersEnd := by
  simp only [_addHeader, HTTPS_HEADER_FIELD_SEPARATOR,
    HTTPS_END_OF_HEADER_LINES_INDICATOR_LENGTH, List.length_cons, List.length_nil]
  split
  · rename_i hgt
    exact absurd h (by omega)
  · constructor
    · show req.pHeadersCur + pName.length + (0 + 1 + 1) + valueLen + 2 = _
      omega
    · rfl

/-- Helper: an `_addHeader` that does not fit returns `INSUFFICIENT_MEMORY`
and leaves the request unchanged. -/
theorem _addHeader_insufficient (req : _httpsRequest_t) (pName : List Nat)
    (pValue : Nat → Nat) (valueLen : Nat)
    (h : ¬ req.pHeadersCur + pName.length + 2 + valueLen + 2 + 2 ≤ req.pHeadersEnd) :
    _addHeader req pName pValue valueLen = (IOT_HTTPS_INSUFFICIENT_MEMORY, req) := by
  simp only [_addHeader, HTTPS_HEADER_FIELD_SEPARATOR,
    HTTPS_END_OF_HEADER_LINES_INDICATOR_LENGTH, List.length_cons, List.length_nil]
  split
  · rfl
  · rename_i hle
    exact absurd h (by omega)

/-- A concrete request context used as counterexample input: 8 bytes of header
space left. -/
def c1Request : _httpsRequest_t :=
  { pHeaders := 0, pHeadersCur := 0, pHeadersEnd := 8, pBody := none, bodyLength := 0,
    cancelled := false, reqFinishedSending := false, hasResponse := true,
    respIsAsync := false, mem := fun _ => 0 }

/-- C1 counterexample: adding header "A: B" with 8 bytes of space left is
accepted (1 + 2 + 1 + 2 + RESERVED_TAIL = 60 > 8 would demand rejection under
the claim), and after the accepted call the cursor does not satisfy
`pHeadersCur + RESERVED_TAIL ≤ pHeadersEnd`. -/
theorem addHeader_reserved_tail_counterexample :
    (_addHeader c1Request [65] (fun _ => 66) 1).1 = IOT_HTTPS_OK ∧
    ¬ ((_addHeader c1Request [65] (fun _ => 66) 1).2.pHeadersCur + RESERVED_TAIL ≤
        c1Request.pHeadersEnd) ∧
    ([65] : List Nat).length + 2 + 1 + 2 + RESERVED_TAIL >
      c1Request.pHeadersEnd - c1Request.pHeadersCur := by
  refine ⟨rfl, by decide, by decide⟩

/-- C1 (amended): `_addHeader` accepts exactly when
`len(name) + 2 + len(value) + 2 + 2 ≤ pHeadersEnd − pHeadersCur` — the code
reserves only the two bytes of the final "\r\n", not the full RESERVED_TAIL
(the auto-generated trailing Content-Length and Connection headers are sent
from a separate stack buffer in `_sendHttpsHeaders`, not from this buffer).
An accepted call advances the cursor by `len(name) + 2 + len(value) + 2` and
leaves `pHeadersCur + 2 ≤ pHeadersEnd`; a rejected call returns
`INSUFFICIENT_MEMORY` and leaves the context unchanged. -/
theorem addHeader_space_check (req : _httpsRequest_t) (pName : List Nat)
    (pValue : Nat → Nat) (valueLen : Nat) :
    ((_addHeader req pName pValue valueLen).1 = IOT_HTTPS_OK ↔
      req.pHeadersCur + pName.length + 2 + valueLen + 2 + 2 ≤ req.pHeadersEnd) ∧
    ((_addHeader req pName pValue valueLen).1 = IOT_HTTPS_OK →
      (_addHeader req pName pValue valueLen).2.pHeadersCur =
        req.pHeadersCur + pName.length + 2 + valueLen + 2 ∧
      (_addHeader req pName pValue valueLen).2.pHeadersCur + 2 ≤ req.pHeadersEnd) ∧
    ((_addHeader req pName pValue valueLen).1 ≠ IOT_HTTPS_OK →
      (_addHeader req pName pValue valueLen).1 = IOT_HTTPS_INSUFFICIENT_MEMORY ∧
      (_addHeader req pName pValue valueLen).2 = req) := by
  refine ⟨_addHeader_ok_iff req pName pValue valueLen, fun hok => ?_, fun hne => ?_⟩
  · have hle := (_addHeader_ok_iff req pName pValue valueLen).1 hok
    have hc := _addHeader_cursor req pName pValue valueLen hle
    exact ⟨hc.1, by omega⟩
  · have hle : ¬ req.pHeadersCur + pName.length + 2 + valueLen + 2 + 2 ≤ req.pHeadersEnd :=
      fun hle => hne ((_addHeader_ok_iff req pName pValue valueLen).2 hle)
    have heq := _addHeader_insufficient req pName pValue valueLen hle
    exact ⟨by rw [heq], by rw [heq]⟩

/-- Witness for the C1 amended theorem at a concrete accepted input. -/
theorem addHeader_space_check_witness :
    (_addHeader c1Request [65] (fun _ => 66) 1).1 = IOT_HTTPS_OK →
    (_addHeader c1Request [65] (fun _ => 66) 1).2.pHeadersCur =
      c1Request.pHeadersCur + ([65] : List Nat).length + 2 + 1 + 2 ∧
    (_addHeader c1Request [65] (fun _ => 66) 1).2.pHeadersCur + 2 ≤ c1Request.pHeadersEnd :=
  (addHeader_space_check c1Request [65] (fun _ => 66) 1).2.1

/-- Bytes of a string constant. -/
def strBytes (s : String) : List Nat := s.data.map Char.toNat

/-- HTTP methods of the public API (IotHttpsMethod_t). Modelled from the spec:
the recognized methods are GET, POST, PUT and HEAD; the missing internal
header declares the enum. -/
inductive IotHttpsMethod where
  | IOT_HTTPS_METHOD_GET
  | IOT_HTTPS_METHOD_POST
  | IOT_HTTPS_METHOD_PUT
  | IOT_HTTPS_METHOD_HEAD
  deriving DecidableEq, Repr

/-- Modelled from the spec: the method-string table `_pHttpsMethodStrings` of
the missing internal source. -/
def _pHttpsMethodStrings : IotHttpsMethod → List Nat
  | .IOT_HTTPS_METHOD_GET => strBytes "GET"
  | .IOT_HTTPS_METHOD_POST => strBytes "POST"
  | .IOT_HTTPS_METHOD_PUT => strBytes "PUT"
  | .IOT_HTTPS_METHOD_HEAD => strBytes "HEAD"

/-- Modelled from the spec: macro HTTPS_CONNECT_METHOD of the missing internal
header ("CONNECT is the longest string length HTTP method"). -/
def HTTPS_CONNECT_METHOD : List Nat := strBytes "CONNECT"

/-- Modelled from the spec: macro HTTPS_EMPTY_PATH ("default path `/` if
none"). -/
def HTTPS_EMPTY_PATH : List Nat := strBytes "/"

/-- Modelled from the spec: macro HTTPS_PROTOCOL_VERSION ("HTTP/1.1"). -/
def HTTPS_PROTOCOL_VERSION : List Nat := strBytes "HTTP/1.1"

/-- Modelled from the spec: macro HTTPS_USER_AGENT_HEADER ("User-Agent"). -/
def HTTPS_USER_AGENT_HEADER : List Nat := strBytes "User-Agent"

/-- Modelled from the spec: macro HTTPS_HOST_HEADER ("Host"). -/
def HTTPS_HOST_HEADER : List Nat := strBytes "Host"

/-- Modelled from the spec: macro HTTPS_CONTENT_LENGTH_HEADER
("Content-Length"). -/
def HTTPS_CONTENT_LENGTH_HEADER : List Nat := strBytes "Content-Length"

/-- Modelled from the spec: macro HTTPS_CONNECTION_HEADER ("Connection"). -/
def HTTPS_CONNECTION_HEADER : List Nat := strBytes "Connection"

/-- The partial request line "CONNECT / HTTP/1.1" used only for sizing
(iot_https_client.c:56). -/
def HTTPS_PARTIAL_REQUEST_LINE : List Nat :=
  HTTPS_CONNECT_METHOD ++ strBytes " " ++ HTTPS_EMPTY_PATH ++ strBytes " " ++
    HTTPS_PROTOCOL_VERSION

/-- The User-Agent header line "User-Agent: <ua>\r\n" used for sizing
(iot_https_client.c:65). The configured IOT_HTTPS_USER_AGENT is the
parameter `ua`. -/
def HTTPS_USER_AGENT_HEADER_LINE (ua : List Nat) : List Nat :=
  HTTPS_USER_AGENT_HEADER ++ HTTPS_HEADER_FIELD_SEPARATOR ++ ua ++
    HTTPS_END_OF_HEADER_LINES_INDICATOR

/-- The partial Host header line "Host: \r\n" used for sizing
(iot_https_client.c:75). -/
def HTTPS_PARTIAL_HOST_HEADER_LINE : List Nat :=
  HTTPS_HOST_HEADER ++ HTTPS_HEADER_FIELD_SEPARATOR ++ HTTPS_END_OF_HEADER_LINES_INDICATOR

/-- Embedding of `requestUserBufferMinimumSize` (iot_https_client.c:117-120).
`reqCtxSize` stands for sizeof(_httpsRequest_t), a constant of the missing
internal header.  Each C `sizeof` of a string literal counts the NUL
terminator, hence the `+ 1`s. -/
def requestUserBufferMinimumSize (reqCtxSize : Nat) (ua : List Nat) : Nat :=
  reqCtxSize + (HTTPS_PARTIAL_REQUEST_LINE.length + 1) +
    ((HTTPS_USER_AGENT_HEADER_LINE ua).length + 1) +
    (HTTPS_PARTIAL_HOST_HEADER_LINE.length + 1)

/-- Embedding of `responseUserBufferMinimumSize` (iot_https_client.c:129):
just sizeof(_httpsResponse_t), abstracted as `respCtxSize`. -/
def responseUserBufferMinimumSize (respCtxSize : Nat) : Nat := respCtxSize

theorem requestUserBufferMinimumSize_eq (reqCtxSize : Nat) (ua : List Nat) :
    requestUserBufferMinimumSize reqCtxSize ua = reqCtxSize + 43 + ua.length := by
  simp [requestUserBufferMinimumSize, HTTPS_PARTIAL_REQUEST_LINE,
    HTTPS_USER_AGENT_HEADER_LINE, HTTPS_PARTIAL_HOST_HEADER_LINE, HTTPS_CONNECT_METHOD,
    HTTPS_EMPTY_PATH, HTTPS_PROTOCOL_VERSION, HTTPS_USER_AGENT_HEADER, HTTPS_HOST_HEADER,
    HTTPS_HEADER_FIELD_SEPARATOR, HTTPS_END_OF_HEADER_LINES_INDICATOR, strBytes]
  omega

/-- The request-line part of `IotHttpsClient_InitializeRequest`
(iot_https_client.c:1611-1654): check that
"METHOD SP PATH SP HTTP/1.1 CRLF" fits (the check uses the caller's
`pathLen` even when `pPath` is NULL), then write it (a NULL `pPath` defaults
to "/" at write time). -/
def _writeRequestLine (req : _httpsRequest_t) (method : IotHttpsMethod)
    (pPath : Option (Nat → Nat)) (pathLen : Nat) : IotHttpsReturnCode × _httpsRequest_t :=
  let httpsMethodLen := (_pHttpsMethodStrings method).length
  let httpsProtocolVersionLen := HTTPS_PROTOCOL_VERSION.length
  let spaceLen := 1
  let additionalLength := httpsMethodLen + spaceLen + pathLen + spaceLen +
    httpsProtocolVersionLen + HTTPS_END_OF_HEADER_LINES_INDICATOR_LENGTH
  if additionalLength + req.pHeadersCur > req.pHeadersEnd then
    (IOT_HTTPS_INSUFFICIENT_MEMORY, req)
  else
    let pathBytes : Nat → Nat :=
      match pPath with
      | none => fun i => HTTPS_EMPTY_PATH.getD i 0
      | some f => f
    let actualPathLen : Nat :=
      match pPath with
      | none => HTTPS_EMPTY_PATH.length
      | some _ => pathLen
    let c0 := req.pHeadersCur
    let m1 := writeList req.mem c0 (_pHttpsMethodStrings method)
    let c1 := c0 + httpsMethodLen
    let m2 := writeList m1 c1 (strBytes " ")
    let c2 := c1 + spaceLen
    let m3 := writeFun m2 c2 pathBytes actualPathLen
    let c3 := c2 + actualPathLen
    let m4 := writeList m3 c3 (strBytes " ")
    let c4 := c3 + spaceLen
    let m5 := writeList m4 c4 HTTPS_PROTOCOL_VERSION
    let c5 := c4 + httpsProtocolVersionLen
    let m6 := writeList m5 c5 HTTPS_END_OF_HEADER_LINES_INDICATOR
    let c6 := c5 + HTTPS_END_OF_HEADER_LINES_INDICATOR_LENGTH
    (IOT_HTTPS_OK, { req with pHeadersCur := c6, mem := m6 })

/-- The number of path bytes actually written by `_writeRequestLine`: a NULL
path defaults to "/" at write time. -/
def _requestLineWrittenPathLen (pPath : Option (Nat → Nat)) (pathLen : Nat) : Nat :=
  match pPath with
  | none => HTTPS_EMPTY_PATH.length
  | some _ => pathLen

theorem HTTPS_PROTOCOL_VERSION_length : HTTPS_PROTOCOL_VERSION.length = 8 := rfl

theorem HTTPS_USER_AGENT_HEADER_length : HTTPS_USER_AGENT_HEADER.length = 10 := rfl

theorem HTTPS_HOST_HEADER_length : HTTPS_HOST_HEADER.length = 4 := rfl

theorem HTTPS_EMPTY_PATH_length : HTTPS_EMPTY_PATH.length = 1 := rfl

theorem _pHttpsMethodStrings_length_le (m : IotHttpsMethod) :
    (_pHttpsMethodStrings m).length ≤ 4 := by cases m <;> decide

/-- Helper: `_writeRequestLine` succeeds when the request line fits, and then
advances the cursor by method + space + written path + space + "HTTP/1.1" +
CRLF. -/
theorem _writeRequestLine_ok (req : _httpsRequest_t) (method : IotHttpsMethod)
    (pPath : Option (Nat → Nat)) (pathLen : Nat)
    (h : req.pHeadersCur + (_pHttpsMethodStrings method).length + pathLen + 12 ≤
      req.pHeadersEnd) :
    (_writeRequestLine req method pPath pathLen).1 = IOT_HTTPS_OK ∧
    (_writeRequestLine req method pPath pathLen).2.pHeadersCur =
      req.pHeadersCur + (_pHttpsMethodStrings method).length +
        _requestLineWrittenPathLen pPath pathLen + 12 ∧
    (_writeRequestLine req method pPath pathLen).2.pHeadersEnd = req.pHeadersEnd := by
  simp only [_writeRequestLine, HTTPS_PROTOCOL_VERSION_length,
    HTTPS_END_OF_HEADER_LINES_INDICATOR_LENGTH, _requestLineWrittenPathLen]
  split
  · rename_i hgt
    exact absurd h (by omega)
  · refine ⟨rfl, ?_, rfl⟩
    cases pPath with
    | none =>
      simp only [_requestLineWrittenPathLen, HTTPS_EMPTY_PATH_length]
      try omega
    | some f =>
      simp only [_requestLineWrittenPathLen]
      try omega

/-- The fixed-header part of `IotHttpsClient_InitializeRequest`
(iot_https_client.c:1611-1686): request line, "User-Agent: <ua>\r\n", NULL
check of the host, "Host: <host>\r\n". -/
def _initializeRequestHeaders (req0 : _httpsRequest_t) (userAgent : List Nat)
    (method : IotHttpsMethod) (pPath : Option (Nat → Nat)) (pathLen : Nat)
    (pHost : Option (Nat → Nat)) (hostLen : Nat) : IotHttpsReturnCode × _httpsRequest_t :=
  let r1 := _writeRequestLine req0 method pPath pathLen
  if r1.1 ≠ IOT_HTTPS_OK then (r1.1, r1.2)
  else
    let r2 := _addHeader r1.2 HTTPS_USER_AGENT_HEADER (fun i => userAgent.getD i 0)
      userAgent.length
    if r2.1 ≠ IOT_HTTPS_OK then (r2.1, r2.2)
    else if pHost.isNone then (IOT_HTTPS_INVALID_PARAMETER, r2.2)
    else _addHeader r2.2 HTTPS_HOST_HEADER (pHost.getD (fun _ => 0)) hostLen

/-- Helper: with path length 1, an empty host value and
`methodLen + 40 + len(ua)` bytes of room, the fixed headers all fit. -/
theorem _initializeRequestHeaders_ok (req0 : _httpsRequest_t) (userAgent : List Nat)
    (method : IotHttpsMethod) (pPath : Option (Nat → Nat)) (pHost : Option (Nat → Nat))
    (hhost : pHost.isSome = true)
    (hbudget : req0.pHeadersCur + (_pHttpsMethodStrings method).length + 40 +
      userAgent.length ≤ req0.pHeadersEnd) :
    (_initializeRequestHeaders req0 userAgent method pPath 1 pHost 0).1 = IOT_HTTPS_OK := by
  have hwp : _requestLineWrittenPathLen pPath 1 = 1 := by
    cases pPath <;> simp [_requestLineWrittenPathLen, HTTPS_EMPTY_PATH_length]
  obtain ⟨h1s, h1c, h1e⟩ := _writeRequestLine_ok req0 method pPath 1 (by omega)
  rw [hwp] at h1c
  have h2le : (_writeRequestLine req0 method pPath 1).2.pHeadersCur +
      HTTPS_USER_AGENT_HEADER.length + 2 + userAgent.length + 2 + 2 ≤
      (_writeRequestLine req0 method pPath 1).2.pHeadersEnd := by
    rw [h1c, h1e, HTTPS_USER_AGENT_HEADER_length]
    omega
  have h2s := (_addHeader_ok_iff _ HTTPS_USER_AGENT_HEADER (fun i => userAgent.getD i 0)
    userAgent.length).2 h2le
  obtain ⟨h2c, h2e⟩ := _addHeader_cursor _ HTTPS_USER_AGENT_HEADER
    (fun i => userAgent.getD i 0) userAgent.length h2le
  have h3le : (_addHeader (_writeRequestLine req0 method pPath 1).2 HTTPS_USER_AGENT_HEADER
      (fun i => userAgent.getD i 0) userAgent.length).2.pHeadersCur +
      HTTPS_HOST_HEADER.length + 2 + 0 + 2 + 2 ≤
      (_addHeader (_writeRequestLine req0 method pPath 1).2 HTTPS_USER_AGENT_HEADER
      (fun i => userAgent.getD i 0) userAgent.length).2.pHeadersEnd := by
    rw [h2c, h2e, h1c, h1e, HTTPS_USER_AGENT_HEADER_length, HTTPS_HOST_HEADER_length]
    omega
  have h3s := (_addHeader_ok_iff _ HTTPS_HOST_HEADER (pHost.getD (fun _ => 0)) 0).2 h3le
  obtain ⟨f, hf⟩ := Option.isSome_iff_exists.mp hhost
  simp only [_initializeRequestHeaders]
  rw [if_neg (not_not_intro h1s), if_neg (not_not_intro h2s), if_neg (by simp [hf])]
  exact h3s

/-- Request-configuration record (IotHttpsRequestInfo_t).  Buffer pointers
are modelled by a presence flag plus a length; the path and host pointers by
optional byte views with their separate length fields; the sync/async info
pointers by presence flags (plus the sync body pointer/length, which
initialization copies into the request context). -/
structure IotHttpsRequestInfo_t where
  reqUserBufferPresent : Bool
  reqUserBufferLen : Nat
  respUserBufferPresent : Bool
  respUserBufferLen : Nat
  method : IotHttpsMethod
  pPath : Option (Nat → Nat)
  pathLen : Nat
  pHost : Option (Nat → Nat)
  hostLen : Nat
  isAsync : Bool
  asyncInfoPresent : Bool
  syncInfoPresent : Bool
  syncReqData : Option Nat
  syncReqDataLen : Nat
  isNonPersistent : Bool

/-- Embedding of `IotHttpsClient_InitializeRequest`
(iot_https_client.c:1559-1812), restricted to the request-context half (the
symmetric response-context initialization performs the two response-buffer
validations embedded at the end and cannot fail afterwards).  `mem0` is the
request user buffer's memory before the memset; the request buffer starts at
address 0, so the header region is `[reqCtxSize, reqUserBufferLen)`. -/
def IotHttpsClient_InitializeRequest (reqCtxSize respCtxSize : Nat) (userAgent : List Nat)
    (pReqHandlePresent : Bool) (pReqInfo : Option IotHttpsRequestInfo_t) (mem0 : Mem) :
    IotHttpsReturnCode × Option _httpsRequest_t :=
  match pReqInfo with
  | none => (IOT_HTTPS_INVALID_PARAMETER, none)
  | some info =>
    if ¬ pReqHandlePresent then (IOT_HTTPS_INVALID_PARAMETER, none)
    else if info.reqUserBufferLen < requestUserBufferMinimumSize reqCtxSize userAgent then
      (IOT_HTTPS_INSUFFICIENT_MEMORY, none)
    else if ¬ info.reqUserBufferPresent then (IOT_HTTPS_INVALID_PARAMETER, none)
    else
      let memCleared : Mem := fun a => if a < info.reqUserBufferLen then 0 else mem0 a
      let req0 : _httpsRequest_t :=
        { pHeaders := reqCtxSize, pHeadersCur := reqCtxSize,
          pHeadersEnd := info.reqUserBufferLen, pBody := none, bodyLength := 0,
          cancelled := false, reqFinishedSending := false, hasResponse := false,
          respIsAsync := info.isAsync, mem := memCleared }
      let r3 := _initializeRequestHeaders req0 userAgent info.method info.pPath
        info.pathLen info.pHost info.hostLen
      if r3.1 ≠ IOT_HTTPS_OK then (r3.1, none)
      else
        let r4 :=
          if info.isAsync then
            (if ¬ info.asyncInfoPresent then (IOT_HTTPS_INVALID_PARAMETER, r3.2)
             else (IOT_HTTPS_OK, { r3.2 with pBody := none, bodyLength := 0 }))
          else
            (if ¬ info.syncInfoPresent then (IOT_HTTPS_INVALID_PARAMETER, r3.2)
             else
               (IOT_HTTPS_OK,
                 { r3.2 with pBody := info.syncReqData, bodyLength := info.syncReqDataLen }))
        if r4.1 ≠ IOT_HTTPS_OK then (r4.1, none)
        else if info.respUserBufferLen < responseUserBufferMinimumSize respCtxSize then
          (IOT_HTTPS_INSUFFICIENT_MEMORY, none)
        else if ¬ info.respUserBufferPresent then (IOT_HTTPS_INVALID_PARAMETER, none)
        else (IOT_HTTPS_OK, some { r4.2 with hasResponse := true })

/-- A concrete request configuration for the C2 counterexample: a 160-byte
request buffer, method GET, path "/", one-byte host "h", synchronous. -/
def c2Info : IotHttpsRequestInfo_t :=
  { reqUserBufferPresent := true, reqUserBufferLen := 160,
    respUserBufferPresent := true, respUserBufferLen := 50,
    method := .IOT_HTTPS_METHOD_GET, pPath := some (fun _ => 47), pathLen := 1,
    pHost := some (fun _ => 104), hostLen := 1, isAsync := false,
    asyncInfoPresent := false, syncInfoPresent := true, syncReqData := none,
    syncReqDataLen := 0, isNonPersistent := false }

/-- C2 counterexample: with sizeof(_httpsRequest_t) = 100 and a one-byte
User-Agent, the code's minimum is 144 and the claim's threshold (minimum +
RESERVED_TAIL) is 198; a 160-byte request buffer — smaller than the claim's
threshold — is accepted with OK rather than rejected with
INSUFFICIENT_MEMORY. -/
theorem initializeRequest_reserved_tail_counterexample :
    (IotHttpsClient_InitializeRequest 100 50 [117] true (some c2Info) (fun _ => 0)).1 =
      IOT_HTTPS_OK ∧
    c2Info.reqUserBufferLen < requestUserBufferMinimumSize 100 [117] + RESERVED_TAIL := by
  exact ⟨rfl, by decide⟩

/-- C2 (amended): `IotHttpsClient_InitializeRequest` rejects with
`INSUFFICIENT_MEMORY` any request user buffer smaller than
`requestUserBufferMinimumSize` = sizeof(control) + sizeof("CONNECT / HTTP/1.1")
+ sizeof("User-Agent: <ua>\r\n") + sizeof("Host: \r\n") — with NUL terminators
counted by sizeof and with NO RESERVED_TAIL term; and for every buffer at
least RESERVED_TAIL bytes above that minimum, with path "/", the fixed
headers and an empty host, initialization does not fail for lack of space. -/
theorem initializeRequest_min_size (reqCtxSize respCtxSize : Nat) (ua : List Nat)
    (info : IotHttpsRequestInfo_t) (mem0 : Mem) :
    (info.reqUserBufferLen < requestUserBufferMinimumSize reqCtxSize ua →
      (IotHttpsClient_InitializeRequest reqCtxSize respCtxSize ua true (some info) mem0).1 =
        IOT_HTTPS_INSUFFICIENT_MEMORY) ∧
    (info.reqUserBufferPresent = true →
     info.pathLen = 1 →
     info.pHost.isSome = true →
     info.hostLen = 0 →
     info.isAsync = false →
     info.syncInfoPresent = true →
     info.respUserBufferPresent = true →
     responseUserBufferMinimumSize respCtxSize ≤ info.respUserBufferLen →
     requestUserBufferMinimumSize reqCtxSize ua + RESERVED_TAIL ≤ info.reqUserBufferLen →
      (IotHttpsClient_InitializeRequest reqCtxSize respCtxSize ua true (some info) mem0).1 =
        IOT_HTTPS_OK) := by
  constructor
  · intro hlt
    simp only [IotHttpsClient_InitializeRequest]
    rw [if_neg (by simp), if_pos hlt]
  · intro hbuf hpath hhost hhostLen hasync hsync hrespbuf hresplen hsize
    have hmin := requestUserBufferMinimumSize_eq reqCtxSize ua
    have hRT := RESERVED_TAIL_eq
    have hmlen := _pHttpsMethodStrings_length_le info.method
    simp only [IotHttpsClient_InitializeRequest]
    rw [if_neg (by simp), if_neg (by omega), if_neg (by simp [hbuf])]
    have hH := _initializeRequestHeaders_ok
      { pHeaders := reqCtxSize, pHeadersCur := reqCtxSize,
        pHeadersEnd := info.reqUserBufferLen, pBody := none, bodyLength := 0,
        cancelled := false, reqFinishedSending := false, hasResponse := false,
        respIsAsync := info.isAsync,
        mem := fun a => if a < info.reqUserBufferLen then 0 else mem0 a }
      ua info.method info.pPath info.pHost hhost (by simp; omega)
    rw [hpath, hhostLen]
    rw [if_neg (not_not_intro hH)]
    rw [hasync]
    simp only [Bool.false_eq_true, if_false, hsync, not_true, if_neg (not_not_intro rfl)]
    rw [if_neg (by simp only [responseUserBufferMinimumSize] at hresplen ⊢; omega),
      if_neg (by simp [hrespbuf])]

/-- Witness for the C2 amended theorem: the concrete configuration `c2Info`
enlarged to a 250-byte request buffer with an empty host meets every
hypothesis of the success half. -/
theorem initializeRequest_min_size_witness :
    (IotHttpsClient_InitializeRequest 100 50 [117] true
      (some { c2Info with reqUserBufferLen := 250, hostLen := 0 }) (fun _ => 0)).1 =
      IOT_HTTPS_OK :=
  (initializeRequest_min_size 100 50 [117]
      { c2Info with reqUserBufferLen := 250, hostLen := 0 } (fun _ => 0)).2
    rfl rfl rfl rfl rfl rfl rfl (by decide) (by decide)

/-- Embedding of `_networkRecv`'s receive loop (iot_https_client.c:1919-1950).
`numBytesRecv`, `numBytesRecvTotal` and `lengthToReceive` are all `size_t`:
machine words modulo `W = 2^w`.  `trace` lists the values returned by the
successive transport `receive` calls, already converted to `size_t` — a
negative signed return appears as a huge unsigned value (e.g. −1 as W − 1),
so the source's `numBytesRecv < 0` check (line 1941) is always false and its
`NETWORK_ERROR` assignment is unreachable: it has no counterpart here.  A
nonzero return is added to the total modulo W, and the unsigned while
condition `lengthToReceive − numBytesRecvTotal > 0` keeps looping unless the
total equals the requested length exactly (an overshoot wraps and continues).
Result: (status, numBytesRecvTotal, number of transport receive calls made).
An exhausted trace models a transport that is never consulted further;
theorems always supply traces long enough. -/
def _networkRecvLoop (W : Nat) : List Nat → Nat → Nat → Nat → IotHttpsReturnCode × Nat × Nat
  | [], _, total, calls => (IOT_HTTPS_OK, total, calls)
  | r :: rest, lengthToReceive, total, calls =>
    if r = 0 then (IOT_HTTPS_TIMEOUT_ERROR, total, calls + 1)
    else
      let total1 := (total + r) % W
      if (lengthToReceive + W - total1) % W > 0 then
        _networkRecvLoop W rest lengthToReceive total1 (calls + 1)
      else (IOT_HTTPS_OK, total1, calls + 1)

/-- Embedding of `_networkRecv` (iot_https_client.c:1919-1950): a do-while
loop, so the first transport call happens unconditionally. -/
def _networkRecv (W bufLen : Nat) (trace : List Nat) : IotHttpsReturnCode × Nat × Nat :=
  _networkRecvLoop W trace bufLen 0 0

/-- Helper: the receive loop can never return `NETWORK_ERROR` — the `< 0`
check on the `size_t` local is dead code. -/
theorem _networkRecvLoop_no_network_error (W : Nat) : ∀ (trace : List Nat)
    (lengthToReceive total calls : Nat),
    (_networkRecvLoop W trace lengthToReceive total calls).1 ≠ IOT_HTTPS_NETWORK_ERROR := by
  intro trace
  induction trace with
  | nil =>
    intro l t c h
    exact IotHttpsReturnCode.noConfusion h
  | cons r rest ih =>
    intro l t c
    simp only [_networkRecvLoop]
    split
    · intro h
      exact IotHttpsReturnCode.noConfusion h
    · split
      · exact ih l _ _
      · intro h
        exact IotHttpsReturnCode.noConfusion h

/-- C4 counterexample (with w = 32, so size_t values are modulo 2^32): a
2-byte slice with a transport returning one byte per call takes TWO transport
receive calls, not one; and a negative transport return (−1, i.e. 4294967295
as size_t) does NOT map to NETWORK_ERROR — it is counted as 4294967295 bytes
received and the loop goes on. -/
theorem networkRecv_single_call_counterexample :
    (_networkRecv (2 ^ 32) 2 [1, 1]).2.2 = 2 ∧
    ¬ (_networkRecv (2 ^ 32) 2 [1, 1]).2.2 = 1 ∧
    ¬ (_networkRecv (2 ^ 32) 2 [4294967295]).1 = IOT_HTTPS_NETWORK_ERROR ∧
    (_networkRecv (2 ^ 32) 2 [4294967295]).2.1 = 4294967295 := by decide

/-- C4 (amended): `_networkRecv` LOOPS over the transport `recv` (a do-while)
rather than making a single call: a return of 0 maps to `TIMEOUT_ERROR` at
any iteration; a nonzero return is added to the running total (modulo the
size_t width) and the loop continues unless the total equals the requested
length exactly, which yields `OK`.  No negative-return mapping to
`NETWORK_ERROR` exists: `numBytesRecv` is `size_t`, so the source's `< 0`
check is dead and the loop never returns `NETWORK_ERROR` — a negative return,
wrapped to a huge unsigned value, over-counts the total and keeps looping. -/
theorem networkRecv_loop_spec (W lengthToReceive total calls r : Nat)
    (rest : List Nat) (bufLen : Nat) (trace : List Nat) :
    _networkRecvLoop W (0 :: rest) lengthToReceive total calls =
      (IOT_HTTPS_TIMEOUT_ERROR, total, calls + 1) ∧
    (0 < r → (lengthToReceive + W - (total + r) % W) % W > 0 →
      _networkRecvLoop W (r :: rest) lengthToReceive total calls =
        _networkRecvLoop W rest lengthToReceive ((total + r) % W) (calls + 1)) ∧
    (0 < r → (lengthToReceive + W - (total + r) % W) % W = 0 →
      _networkRecvLoop W (r :: rest) lengthToReceive total calls =
        (IOT_HTTPS_OK, (total + r) % W, calls + 1)) ∧
    (_networkRecvLoop W trace lengthToReceive total calls).1 ≠ IOT_HTTPS_NETWORK_ERROR ∧
    _networkRecv W bufLen trace = _networkRecvLoop W trace bufLen 0 0 := by
  refine ⟨?_, ?_, ?_, _networkRecvLoop_no_network_error W trace lengthToReceive total calls,
    rfl⟩
  · simp [_networkRecvLoop]
  · intro hr hc
    simp only [_networkRecvLoop]
    rw [if_neg (by omega), if_pos hc]
  · intro hr hc
    simp only [_networkRecvLoop]
    rw [if_neg (by omega), if_neg (by omega)]

/-- Witness for the C4 amended theorem at concrete transport returns
(w = 32): a 2-byte short read of a 7-byte request continues the loop; a
5-byte read then fills it exactly and returns OK. -/
theorem networkRecv_loop_spec_witness :
    _networkRecvLoop (2 ^ 32) [2, 5] 7 0 0 = _networkRecvLoop (2 ^ 32) [5] 7 2 1 ∧
    _networkRecvLoop (2 ^ 32) [5] 7 2 1 = (IOT_HTTPS_OK, 7, 2) ∧
    ¬ (_networkRecvLoop (2 ^ 32) [4294967295] 7 0 0).1 = IOT_HTTPS_NETWORK_ERROR := by
  have h2 := (networkRecv_loop_spec (2 ^ 32) 7 0 0 2 [5] 0 []).2.1 (by omega) (by decide)
  have h3 := (networkRecv_loop_spec (2 ^ 32) 7 2 1 5 [] 0 []).2.2.1 (by omega) (by decide)
  have h4 := (networkRecv_loop_spec (2 ^ 32) 7 0 0 0 [] 0 [4294967295]).2.2.2.1
  exact ⟨by simpa using h2, by simpa using h3, h4⟩

/-- Parser progress through one response (IotHttpsResponseParserState_t).
The order is the declaration order of the C enum (spec §4.2). -/
inductive IotHttpsResponseParserState where
  | PARSER_STATE_NONE
  | PARSER_STATE_IN_HEADERS
  | PARSER_STATE_HEADERS_COMPLETE
  | PARSER_STATE_IN_BODY
  | PARSER_STATE_BODY_COMPLETE
  deriving DecidableEq, Repr

/-- Numeric value of the parser-state enum, for the C `<` comparisons. -/
def IotHttpsResponseParserState.toNat : IotHttpsResponseParserState → Nat
  | .PARSER_STATE_NONE => 0
  | .PARSER_STATE_IN_HEADERS => 1
  | .PARSER_STATE_HEADERS_COMPLETE => 2
  | .PARSER_STATE_IN_BODY => 3
  | .PARSER_STATE_BODY_COMPLETE => 4

/-- Buffer-processing mode of the response driver
(IotHttpsResponseBufferState_t).  Modelled from the spec (§4.2): the missing
internal header declares the enum in the order NONE, FILLING_HEADER_BUFFER,
FILLING_BODY_BUFFER, SEARCHING_HEADER_BUFFER, FINISHED. -/
inductive IotHttpsResponseBufferState where
  | PROCESSING_STATE_NONE
  | PROCESSING_STATE_FILLING_HEADER_BUFFER
  | PROCESSING_STATE_FILLING_BODY_BUFFER
  | PROCESSING_STATE_SEARCHING_HEADER_BUFFER
  | PROCESSING_STATE_FINISHED
  deriving DecidableEq, Repr

/-- Numeric value of the buffer-processing enum, for the C `<` comparisons. -/
def IotHttpsResponseBufferState.toNat : IotHttpsResponseBufferState → Nat
  | .PROCESSING_STATE_NONE => 0
  | .PROCESSING_STATE_FILLING_HEADER_BUFFER => 1
  | .PROCESSING_STATE_FILLING_BODY_BUFFER => 2
  | .PROCESSING_STATE_SEARCHING_HEADER_BUFFER => 3
  | .PROCESSING_STATE_FINISHED => 4

/-- One iteration of the `_receiveHttpsMessage` loop, as observed through its
two calls: `networkStatus` is what `_networkRecv` wrote to `*pNetworkStatus`,
and the `_parseHttpsMessage` run over `[pBufCur, pBufEnd)` yields
`parseStatus` while its callbacks leave the parser state at
`parserStateAfter` and the cursor at `bufCurAfter` (the loop itself never
moves the cursor). -/
structure RecvStep where
  networkStatus : IotHttpsReturnCode
  parseStatus : IotHttpsReturnCode
  parserStateAfter : IotHttpsResponseParserState
  bufCurAfter : Nat
  deriving Repr

/-- Embedding of `_receiveHttpsMessage` (iot_https_client.c:2067-2116).
Arguments: final parser state, current parser state, buffer cursor, buffer
end, the current `*pNetworkStatus`, and the trace of loop iterations.
Result: (status, `*pNetworkStatus`, parser state, cursor, iterations run). -/
def _receiveHttpsMessage (finalParserState : IotHttpsResponseParserState) :
    IotHttpsResponseParserState → Nat → Nat → IotHttpsReturnCode → List RecvStep →
    IotHttpsReturnCode × IotHttpsReturnCode × IotHttpsResponseParserState × Nat × Nat
  | curState, bufCur, _, netStatus, [] => (IOT_HTTPS_OK, netStatus, curState, bufCur, 0)
  | curState, bufCur, bufEnd, netStatus, step :: rest =>
    if curState.toNat < finalParserState.toNat ∧ bufEnd - bufCur > 0 then
      if step.parseStatus ≠ IOT_HTTPS_OK then
        (step.parseStatus, step.networkStatus, step.parserStateAfter, step.bufCurAfter, 1)
      else if step.networkStatus ≠ IOT_HTTPS_OK then
        (IOT_HTTPS_OK, step.networkStatus, step.parserStateAfter, step.bufCurAfter, 1)
      else
        let r := _receiveHttpsMessage finalParserState step.parserStateAfter
          step.bufCurAfter bufEnd step.networkStatus rest
        (r.1, r.2.1, r.2.2.1, r.2.2.2.1, r.2.2.2.2 + 1)
    else (IOT_HTTPS_OK, netStatus, curState, bufCur, 0)

/-- A loop iteration whose `_networkRecv` timed out (recv returned 0) while
the parse succeeded without finishing the headers. -/
def c3Step1 : RecvStep :=
  { networkStatus := IOT_HTTPS_TIMEOUT_ERROR, parseStatus := IOT_HTTPS_OK,
    parserStateAfter := .PARSER_STATE_IN_HEADERS, bufCurAfter := 0 }

/-- A loop iteration with everything OK, finishing the headers. -/
def c3Step2 : RecvStep :=
  { networkStatus := IOT_HTTPS_OK, parseStatus := IOT_HTTPS_OK,
    parserStateAfter := .PARSER_STATE_HEADERS_COMPLETE, bufCurAfter := 5 }

/-- C3 counterexample: a TIMEOUT network status alone DOES terminate the
receive loop.  With the loop condition still true after the first iteration
(parser state below the final state, space left) and a second iteration
available, the loop runs only one iteration because the first one's network
status was `TIMEOUT_ERROR`. -/
theorem receiveHttpsMessage_timeout_counterexample :
    (_receiveHttpsMessage .PARSER_STATE_HEADERS_COMPLETE .PARSER_STATE_NONE 0 10
      IOT_HTTPS_OK [c3Step1, c3Step2]).2.2.2.2 = 1 ∧
    c3Step1.networkStatus = IOT_HTTPS_TIMEOUT_ERROR ∧
    c3Step1.parseStatus = IOT_HTTPS_OK ∧
    c3Step1.parserStateAfter.toNat <
      IotHttpsResponseParserState.PARSER_STATE_HEADERS_COMPLETE.toNat ∧
    10 - c3Step1.bufCurAfter > 0 := by decide

/-- C3 (amended): the receive loop iterates while
`curState < finalState ∧ pBufEnd − pBufCur > 0`; each iteration is a recv
into `[pBufCur, pBufEnd)` followed by a parse of that slice, with the parser
state and cursor advanced only by the iteration's parser callbacks; the loop
exits early on a parser error (surfacing it) or on ANY non-OK network status
— including `TIMEOUT_ERROR` — checked after the parse (the network status is
recorded but not surfaced as the return status). -/
theorem receiveHttpsMessage_loop_spec (fs curState : IotHttpsResponseParserState)
    (bufCur bufEnd : Nat) (netStatus : IotHttpsReturnCode) (step : RecvStep)
    (rest trace : List RecvStep) :
    (¬ (curState.toNat < fs.toNat ∧ bufEnd - bufCur > 0) →
      _receiveHttpsMessage fs curState bufCur bufEnd netStatus trace =
        (IOT_HTTPS_OK, netStatus, curState, bufCur, 0)) ∧
    (curState.toNat < fs.toNat → bufEnd - bufCur > 0 →
      (step.parseStatus ≠ IOT_HTTPS_OK →
        _receiveHttpsMessage fs curState bufCur bufEnd netStatus (step :: rest) =
          (step.parseStatus, step.networkStatus, step.parserStateAfter, step.bufCurAfter, 1)) ∧
      (step.parseStatus = IOT_HTTPS_OK → step.networkStatus ≠ IOT_HTTPS_OK →
        _receiveHttpsMessage fs curState bufCur bufEnd netStatus (step :: rest) =
          (IOT_HTTPS_OK, step.networkStatus, step.parserStateAfter, step.bufCurAfter, 1)) ∧
      (step.parseStatus = IOT_HTTPS_OK → step.networkStatus = IOT_HTTPS_OK →
        _receiveHttpsMessage fs curState bufCur bufEnd netStatus (step :: rest) =
          ((_receiveHttpsMessage fs step.parserStateAfter step.bufCurAfter bufEnd
              step.networkStatus rest).1,
           (_receiveHttpsMessage fs step.parserStateAfter step.bufCurAfter bufEnd
              step.networkStatus rest).2.1,
           (_receiveHttpsMessage fs step.parserStateAfter step.bufCurAfter bufEnd
              step.networkStatus rest).2.2.1,
           (_receiveHttpsMessage fs step.parserStateAfter step.bufCurAfter bufEnd
              step.networkStatus rest).2.2.2.1,
           (_receiveHttpsMessage fs step.parserStateAfter step.bufCurAfter bufEnd
              step.networkStatus rest).2.2.2.2 + 1))) := by
  constructor
  · intro hn
    cases trace with
    | nil => rfl
    | cons s t =>
      simp only [_receiveHttpsMessage]
      rw [if_neg hn]
  · intro h1 h2
    refine ⟨?_, ?_, ?_⟩
    · intro hp
      simp only [_receiveHttpsMessage]
      rw [if_pos ⟨h1, h2⟩, if_pos hp]
    · intro hp hn
      simp only [_receiveHttpsMessage]
      rw [if_pos ⟨h1, h2⟩, if_neg (not_not_intro hp), if_pos hn]
    · intro hp hn
      simp only [_receiveHttpsMessage]
      rw [if_pos ⟨h1, h2⟩, if_neg (not_not_intro hp), if_neg (not_not_intro hn)]

/-- Witness for the C3 amended theorem at concrete loop iterations. -/
theorem receiveHttpsMessage_loop_spec_witness :
    _receiveHttpsMessage .PARSER_STATE_HEADERS_COMPLETE .PARSER_STATE_HEADERS_COMPLETE 0 10
      IOT_HTTPS_OK [c3Step1] = (IOT_HTTPS_OK, IOT_HTTPS_OK,
        .PARSER_STATE_HEADERS_COMPLETE, 0, 0) ∧
    _receiveHttpsMessage .PARSER_STATE_HEADERS_COMPLETE .PARSER_STATE_NONE 0 10
      IOT_HTTPS_OK [c3Step1, c3Step2] = (IOT_HTTPS_OK, c3Step1.networkStatus,
        c3Step1.parserStateAfter, c3Step1.bufCurAfter, 1) := by
  refine ⟨(receiveHttpsMessage_loop_spec .PARSER_STATE_HEADERS_COMPLETE
    .PARSER_STATE_HEADERS_COMPLETE 0 10 IOT_HTTPS_OK c3Step1 [] [c3Step1]).1 (by decide), ?_⟩
  exact ((receiveHttpsMessage_loop_spec .PARSER_STATE_HEADERS_COMPLETE
    .PARSER_STATE_NONE 0 10 IOT_HTTPS_OK c3Step1 [c3Step2] []).2 (by decide) (by decide)).2.1
    (by decide) (by decide)

/-- Internal response context (_httpsResponse_t), with the fields the
embedded operations touch.  Buffer pointers are offsets into `mem`; the
NULL-able body-buffer pointer is `pBody` (its cursor pair `pBodyCur`/`pBodyEnd`
is meaningful only when `pBody` is not NULL); the header-search scratch
`pReadHeaderValue` holds the value bytes the parser reported. -/
structure _httpsResponse_t where
  parserState : IotHttpsResponseParserState
  bufferProcessingState : IotHttpsResponseBufferState
  isAsync : Bool
  method : IotHttpsMethod
  status : Nat
  contentLength : Nat
  pHeaders : Nat
  pHeadersCur : Nat
  pHeadersEnd : Nat
  pBody : Option Nat
  pBodyCur : Nat
  pBodyEnd : Nat
  pBodyStartInHeaderBuf : Option Nat
  bodyLengthInHeaderBuf : Nat
  pReadHeaderField : List Nat
  pReadHeaderValue : Option (List Nat)
  readHeaderValueLength : Nat
  foundHeaderField : Bool
  cancelled : Bool
  mem : Mem

/-- Embedding of `_httpParserOnBodyCallback` (iot_https_client.c:708-744).
`pLoc` is the address of the parsed body chunk inside `mem` and `length` its
length.  The callback always returns 0, so only the state matters. -/
def _httpParserOnBodyCallback (resp0 : _httpsResponse_t) (pLoc : Nat) (length : Nat) :
    _httpsResponse_t :=
  let resp := { resp0 with parserState := .PARSER_STATE_IN_BODY }
  if resp.bufferProcessingState = .PROCESSING_STATE_FILLING_HEADER_BUFFER ∧ resp.isAsync then
    let resp1 :=
      match resp.pBodyStartInHeaderBuf with
      | none => { resp with pBodyStartInHeaderBuf := some pLoc }
      | some _ => resp
    { resp1 with bodyLengthInHeaderBuf := resp1.bodyLengthInHeaderBuf + length }
  else if resp.bufferProcessingState.toNat <
      IotHttpsResponseBufferState.PROCESSING_STATE_FINISHED.toNat then
    if resp.pBodyCur + length ≤ resp.pBodyEnd then
      let mem1 :=
        if resp.pBodyCur ≠ pLoc then
          writeFun resp.mem resp.pBodyCur (fun i => resp.mem (pLoc + i)) length
        else resp.mem
      { resp with mem := mem1, pBodyCur := resp.pBodyCur + length }
    else resp
  else resp

/-- A concrete synchronous response filling its body buffer, with 1 byte of
body space left. -/
def c5Resp : _httpsResponse_t :=
  { parserState := .PARSER_STATE_HEADERS_COMPLETE,
    bufferProcessingState := .PROCESSING_STATE_FILLING_BODY_BUFFER, isAsync := false,
    method := .IOT_HTTPS_METHOD_GET, status := 200, contentLength := 2, pHeaders := 0,
    pHeadersCur := 40, pHeadersEnd := 50, pBody := some 50, pBodyCur := 50, pBodyEnd := 51,
    pBodyStartInHeaderBuf := none, bodyLengthInHeaderBuf := 0, pReadHeaderField := [],
    pReadHeaderValue := none, readHeaderValueLength := 0, foundHeaderField := false,
    cancelled := false, mem := fun _ => 0 }

/-- C5 counterexample: a 2-byte chunk arriving with only 1 byte of body-buffer
room is dropped entirely — the cursor stays put — whereas the claim requires a
truncated copy up to `min(pBodyEnd, pBodyCur + len)` with the cursor advanced
accordingly. -/
theorem onBodyCallback_truncation_counterexample :
    (_httpParserOnBodyCallback c5Resp 100 2).pBodyCur = 50 ∧
    min c5Resp.pBodyEnd (c5Resp.pBodyCur + 2) = 51 ∧
    ¬ (_httpParserOnBodyCallback c5Resp 100 2).pBodyCur =
        min c5Resp.pBodyEnd (c5Resp.pBodyCur + 2) := by decide

/-- C5 (amended): the body callback sets `parserState := IN_BODY` and then:
in the async filling-header-buffer case records the chunk position
(`pBodyStartInHeaderBuf` on first use, `bodyLengthInHeaderBuf` accumulated);
otherwise, below the FINISHED processing state, it copies the chunk ONLY if
it fits completely (`pBodyCur + len ≤ pBodyEnd`) — skipping the memcpy when
the data is already in place — and advances the cursor by the full length; a
chunk that does not fit is dropped entirely and the cursor does not move. -/
theorem onBodyCallback_spec (resp : _httpsResponse_t) (pLoc length : Nat) :
    (resp.bufferProcessingState = .PROCESSING_STATE_FILLING_HEADER_BUFFER →
     resp.isAsync = true →
      _httpParserOnBodyCallback resp pLoc length =
        { resp with
            parserState := .PARSER_STATE_IN_BODY
            pBodyStartInHeaderBuf := some (resp.pBodyStartInHeaderBuf.getD pLoc)
            bodyLengthInHeaderBuf := resp.bodyLengthInHeaderBuf + length }) ∧
    (¬ (resp.bufferProcessingState = .PROCESSING_STATE_FILLING_HEADER_BUFFER ∧
        resp.isAsync = true) →
     resp.bufferProcessingState.toNat <
        IotHttpsResponseBufferState.PROCESSING_STATE_FINISHED.toNat →
      (resp.pBodyCur + length ≤ resp.pBodyEnd →
        _httpParserOnBodyCallback resp pLoc length =
          { resp with
              parserState := .PARSER_STATE_IN_BODY
              mem := if resp.pBodyCur ≠ pLoc then
                  writeFun resp.mem resp.pBodyCur (fun i => resp.mem (pLoc + i)) length
                else resp.mem
              pBodyCur := resp.pBodyCur + length }) ∧
      (¬ resp.pBodyCur + length ≤ resp.pBodyEnd →
        _httpParserOnBodyCallback resp pLoc length =
          { resp with parserState := .PARSER_STATE_IN_BODY })) ∧
    (resp.bufferProcessingState = .PROCESSING_STATE_FINISHED →
      _httpParserOnBodyCallback resp pLoc length =
        { resp with parserState := .PARSER_STATE_IN_BODY }) := by
  refine ⟨?_, ?_, ?_⟩
  · intro hs ha
    simp only [_httpParserOnBodyCallback]
    rw [if_pos (by simp [hs, ha])]
    cases hstart : resp.pBodyStartInHeaderBuf <;> simp [hstart]
  · intro hns hlt
    constructor
    · intro hfit
      simp only [_httpParserOnBodyCallback]
      rw [if_neg (by simpa using hns), if_pos (by simpa using hlt), if_pos hfit]
    · intro hnofit
      simp only [_httpParserOnBodyCallback]
      rw [if_neg (by simpa using hns), if_pos (by simpa using hlt), if_neg hnofit]
  · intro hfin
    simp only [_httpParserOnBodyCallback]
    rw [if_neg (by simp [hfin]), if_neg (by simp [hfin, IotHttpsResponseBufferState.toNat])]

/-- Witness for the C5 amended theorem: the fitting-chunk case at a concrete
state (2 bytes into a buffer with 1 byte of room is the counterexample; here
1 byte into 1 byte of room succeeds). -/
theorem onBodyCallback_spec_witness :
    _httpParserOnBodyCallback c5Resp 100 1 =
      { c5Resp with
          parserState := .PARSER_STATE_IN_BODY
          mem := writeFun c5Resp.mem c5Resp.pBodyCur (fun i => c5Resp.mem (100 + i)) 1
          pBodyCur := c5Resp.pBodyCur + 1 } := by
  have h := ((onBodyCallback_spec c5Resp 100 1).2.1 (by decide) (by decide)).1 (by decide)
  rw [h]
  rw [if_pos (by decide)]

/-- Embedding of `IotHttpsClient_CancelRequestAsync`
(iot_https_client.c:2436-2454): a non-null response handle takes priority;
the request flag is set only when the response handle is null; both null is
INVALID_PARAMETER.  Returns the status and both post-call contexts. -/
def IotHttpsClient_CancelRequestAsync (reqHandle : Option _httpsRequest_t)
    (respHandle : Option _httpsResponse_t) :
    IotHttpsReturnCode × Option _httpsRequest_t × Option _httpsResponse_t :=
  match respHandle with
  | some resp => (IOT_HTTPS_OK, reqHandle, some { resp with cancelled := true })
  | none =>
    match reqHandle with
    | some req => (IOT_HTTPS_OK, some { req with cancelled := true }, none)
    | none => (IOT_HTTPS_INVALID_PARAMETER, none, none)

/-- C9 (confirmed): with both handles non-null, only the response's
`cancelled` flag is set — the result response equals the input with just
`cancelled := true`, every other field untouched — and the request context is
returned completely unchanged; the request flag is set only when the response
handle is null. -/
theorem cancelRequestAsync_frame (req : _httpsRequest_t) (resp : _httpsResponse_t) :
    IotHttpsClient_CancelRequestAsync (some req) (some resp) =
      (IOT_HTTPS_OK, some req, some { resp with cancelled := true }) ∧
    IotHttpsClient_CancelRequestAsync (some req) none =
      (IOT_HTTPS_OK, some { req with cancelled := true }, none) := by
  exact ⟨rfl, rfl⟩

/-- Embedding of `IotHttpsClient_ReadContentLength`
(iot_https_client.c:2799-2827).  The second component is the value written
through `pContentLength` (`none` when nothing was written). -/
def IotHttpsClient_ReadContentLength (respHandle : Option _httpsResponse_t)
    (pContentLengthPresent : Bool) : IotHttpsReturnCode × Option Nat :=
  match respHandle, pContentLengthPresent with
  | none, _ => (IOT_HTTPS_INVALID_PARAMETER, none)
  | some _, false => (IOT_HTTPS_INVALID_PARAMETER, none)
  | some resp, true =>
    if resp.contentLength ≤ 0 then (IOT_HTTPS_NOT_FOUND, some 0)
    else (IOT_HTTPS_OK, some resp.contentLength)

/-- C10 (confirmed): a stored content length of 0 yields `NOT_FOUND` with 0
written to the output — so a literal "Content-Length: 0" header is
indistinguishable at this interface from an absent header, both leaving the
stored value 0 — while a positive stored value is returned with `OK`. -/
theorem readContentLength_zero_not_found (resp r1 r2 : _httpsResponse_t) :
    (resp.contentLength = 0 →
      IotHttpsClient_ReadContentLength (some resp) true = (IOT_HTTPS_NOT_FOUND, some 0)) ∧
    (0 < resp.contentLength →
      IotHttpsClient_ReadContentLength (some resp) true =
        (IOT_HTTPS_OK, some resp.contentLength)) ∧
    (r1.contentLength = 0 → r2.contentLength = 0 →
      IotHttpsClient_ReadContentLength (some r1) true =
        IotHttpsClient_ReadContentLength (some r2) true) := by
  refine ⟨?_, ?_, ?_⟩
  · intro h0
    simp [IotHttpsClient_ReadContentLength, h0]
  · intro hpos
    simp only [IotHttpsClient_ReadContentLength]
    rw [if_neg (by omega)]
  · intro h1 h2
    simp [IotHttpsClient_ReadContentLength, h1, h2]

/-- Witness for the C10 theorem: content length 0 and content length 11. -/
theorem readContentLength_zero_not_found_witness :
    IotHttpsClient_ReadContentLength (some c5Resp) true = (IOT_HTTPS_OK, some 2) ∧
    IotHttpsClient_ReadContentLength (some { c5Resp with contentLength := 0 }) true =
      (IOT_HTTPS_NOT_FOUND, some 0) := by
  refine ⟨?_, ?_⟩
  · exact (readContentLength_zero_not_found c5Resp c5Resp c5Resp).2.1 (by decide)
  · exact (readContentLength_zero_not_found { c5Resp with contentLength := 0 }
      c5Resp c5Resp).1 rfl

/-- Embedding of `IotHttpsClient_WriteRequestBody`
(iot_https_client.c:2330-2383).  The outer `Option` is the crash monad: the
function body dereferences `reqHandle->pHttpsResponse` without first checking
`reqHandle` for NULL (despite the comment "Check for a NULL reqHandle."), so
a NULL handle reaching that line is modelled as `none`. -/
def IotHttpsClient_WriteRequestBody (reqHandle : Option _httpsRequest_t)
    (pBuf : Option Nat) (len : Nat) (isComplete : Int) :
    Option (IotHttpsReturnCode × Option _httpsRequest_t) :=
  if isComplete ≠ 1 then some (IOT_HTTPS_NOT_SUPPORTED, reqHandle)
  else
    match reqHandle with
    | none => none
    | some req =>
      if ¬ req.hasResponse then some (IOT_HTTPS_INVALID_PARAMETER, some req)
      else if req.respIsAsync = false then some (IOT_HTTPS_INVALID_PARAMETER, some req)
      else if req.bodyLength > 0 then some (IOT_HTTPS_MESSAGE_FINISHED, some req)
      else some (IOT_HTTPS_OK, some { req with pBody := pBuf, bodyLength := len })

/-- C6: calling `IotHttpsClient_WriteRequestBody` with a NULL request handle
and `isComplete = 1` reaches the dereference `reqHandle->pHttpsResponse`
(modelled `none`) instead of returning `INVALID_PARAMETER` — the null check
the code's own comment announces is missing. -/
theorem writeRequestBody_null_handle_crash :
    IotHttpsClient_WriteRequestBody none (some 0) 5 1 = none := rfl

/-- C7 (confirmed): `WriteRequestBody` may be called exactly once: a call
with `isComplete ≠ 1` returns `NOT_SUPPORTED`; a first accepted call on a
valid async request with no body set stores the given pointer and length; any
subsequent call (stored body length positive) returns `MESSAGE_FINISHED`
leaving the stored body pointer and length unchanged. -/
theorem writeRequestBody_exactly_once (req : _httpsRequest_t)
    (pBuf pBuf2 : Option Nat) (len len2 : Nat) (c : Int) (h0 : Option _httpsRequest_t) :
    (c ≠ 1 → IotHttpsClient_WriteRequestBody h0 pBuf len c =
      some (IOT_HTTPS_NOT_SUPPORTED, h0)) ∧
    (req.hasResponse = true → req.respIsAsync = true → req.bodyLength = 0 → 0 < len →
      IotHttpsClient_WriteRequestBody (some req) pBuf len 1 =
        some (IOT_HTTPS_OK, some { req with pBody := pBuf, bodyLength := len }) ∧
      IotHttpsClient_WriteRequestBody (some { req with pBody := pBuf, bodyLength := len })
          pBuf2 len2 1 =
        some (IOT_HTTPS_MESSAGE_FINISHED, some { req with pBody := pBuf, bodyLength := len })) ∧
    (req.hasResponse = true → req.respIsAsync = true → 0 < req.bodyLength →
      IotHttpsClient_WriteRequestBody (some req) pBuf len 1 =
        some (IOT_HTTPS_MESSAGE_FINISHED, some req)) := by
  refine ⟨?_, ?_, ?_⟩
  · intro hc
    simp only [IotHttpsClient_WriteRequestBody]
    rw [if_pos hc]
  · intro hresp hasync hlen0 hlen
    constructor
    · simp only [IotHttpsClient_WriteRequestBody]
      rw [if_neg (by omega), if_neg (by simp [hresp]), if_neg (by simp [hasync]),
        if_neg (by omega)]
    · simp only [IotHttpsClient_WriteRequestBody]
      rw [if_neg (by omega), if_neg (by simp [hresp]), if_neg (by simp [hasync]),
        if_pos (by simpa using hlen)]
  · intro hresp hasync hpos
    simp only [IotHttpsClient_WriteRequestBody]
    rw [if_neg (by omega), if_neg (by simp [hresp]), if_neg (by simp [hasync]),
      if_pos (by simpa using hpos)]

/-- A concrete async request with no body set yet. -/
def c7Request : _httpsRequest_t :=
  { pHeaders := 0, pHeadersCur := 30, pHeadersEnd := 100, pBody := none, bodyLength := 0,
    cancelled := false, reqFinishedSending := false, hasResponse := true,
    respIsAsync := true, mem := fun _ => 0 }

/-- Witness for the C7 theorem: first call stores (buffer 5, length 3); the
second call reports MESSAGE_FINISHED and changes nothing. -/
theorem writeRequestBody_exactly_once_witness :
    IotHttpsClient_WriteRequestBody (some c7Request) (some 5) 3 1 =
      some (IOT_HTTPS_OK, some { c7Request with pBody := some 5, bodyLength := 3 }) ∧
    IotHttpsClient_WriteRequestBody (some { c7Request with pBody := some 5, bodyLength := 3 })
        (some 9) 4 1 =
      some (IOT_HTTPS_MESSAGE_FINISHED,
        some { c7Request with pBody := some 5, bodyLength := 3 }) := by
  exact (writeRequestBody_exactly_once c7Request (some 5) (some 9) 3 4 0 none).2.1
    rfl rfl rfl (by omega)

/-- C `strncmp(s1, s2, n) == 0` for NUL-terminated strings whose contents are
the given byte lists (header names and values carry no interior NUL). -/
def strncmpEq : List Nat → List Nat → Nat → Bool
  | _, _, 0 => true
  | [], [], _ + 1 => true
  | [], _ :: _, _ + 1 => false
  | _ :: _, [], _ + 1 => false
  | c1 :: t1, c2 :: t2, n + 1 => if c1 = c2 then strncmpEq t1 t2 n else false

/-- Events of the consumed http-parser relevant to re-parsing a stored header
region.  Modelled from the spec (§4.2): the external `http_parser_execute`
walks `[pHeaders, pHeadersCur)` and calls back with each header field, each
header value, and headers-complete (carrying the parser's content length). -/
inductive HttpParserEvent where
  | onHeaderField (field : List Nat)
  | onHeaderValue (value : List Nat)
  | onHeadersComplete (parserContentLength : Nat)
  deriving Repr

/-- Embedding of `_httpParserOnHeaderFieldCallback` (iot_https_client.c:611-631)
at event level: in the searching mode, `strncmp` the searched-for field
against the parsed field.  (The FILLING_HEADER_BUFFER branch moves
`pHeadersCur`, a buffer location this event-level model does not carry.) -/
def _httpParserOnHeaderFieldCallback (resp : _httpsResponse_t) (pLoc : List Nat) :
    _httpsResponse_t :=
  if resp.bufferProcessingState = .PROCESSING_STATE_SEARCHING_HEADER_BUFFER then
    if strncmpEq resp.pReadHeaderField pLoc pLoc.length then
      { resp with foundHeaderField := true }
    else resp
  else resp

/-- Embedding of `_httpParserOnHeaderValueCallback` (iot_https_client.c:635-660)
at event level: in the searching mode, once the field was found, record the
value and its length and return 1 to stop the parser. -/
def _httpParserOnHeaderValueCallback (resp : _httpsResponse_t) (pLoc : List Nat) :
    _httpsResponse_t × Bool :=
  if resp.bufferProcessingState = .PROCESSING_STATE_SEARCHING_HEADER_BUFFER then
    if resp.foundHeaderField then
      ({ resp with pReadHeaderValue := some pLoc, readHeaderValueLength := pLoc.length }, true)
    else (resp, false)
  else (resp, false)

/-- Embedding of `_httpParserOnHeadersCompleteCallback`
(iot_https_client.c:664-704): set HEADERS_COMPLETE, stop in the searching
mode, capture the content length, and below FINISHED also stop for a HEAD
method or a synchronous response with no body buffer. -/
def _httpParserOnHeadersCompleteCallback (resp : _httpsResponse_t)
    (parserContentLength : Nat) : _httpsResponse_t × Bool :=
  let resp1 := { resp with parserState := .PARSER_STATE_HEADERS_COMPLETE }
  let stop1 : Bool :=
    decide (resp1.bufferProcessingState = .PROCESSING_STATE_SEARCHING_HEADER_BUFFER)
  let resp2 := { resp1 with contentLength := parserContentLength }
  let stop2 : Bool := stop1 ||
    (decide (resp2.bufferProcessingState.toNat <
        IotHttpsResponseBufferState.PROCESSING_STATE_FINISHED.toNat) &&
      (decide (resp2.method = .IOT_HTTPS_METHOD_HEAD) ||
        (!resp2.isAsync && resp2.pBody.isNone)))
  (resp2, stop2)

/-- The parser run of `IotHttpsClient_ReadHeader`: fold the header callbacks
over the event list, stopping when a callback returns nonzero (the
whitelisted HPE_CB early-exit "errors"; non-whitelisted grammar errors do not
arise from a well-formed stored header region). -/
def _executeParserEvents (resp : _httpsResponse_t) : List HttpParserEvent → _httpsResponse_t
  | [] => resp
  | .onHeaderField f :: rest => _executeParserEvents (_httpParserOnHeaderFieldCallback resp f) rest
  | .onHeaderValue v :: rest =>
    let r := _httpParserOnHeaderValueCallback resp v
    if r.2 then r.1 else _executeParserEvents r.1 rest
  | .onHeadersComplete cl :: rest =>
    let r := _httpParserOnHeadersCompleteCallback resp cl
    if r.2 then r.1 else _executeParserEvents r.1 rest

/-- The response context as `IotHttpsClient_ReadHeader` prepares it before
executing the parser (iot_https_client.c:2753-2755). -/
def _readHeaderSearchState (resp : _httpsResponse_t) (name : List Nat) : _httpsResponse_t :=
  { resp with
      pReadHeaderField := name
      foundHeaderField := false
      bufferProcessingState := .PROCESSING_STATE_SEARCHING_HEADER_BUFFER }

/-- Embedding of `IotHttpsClient_ReadHeader` (iot_https_client.c:2733-2795).
`events` stands for the callback sequence of the re-initialized parser
executed synchronously over `[pHeaders, pHeadersCur)` — no network I/O
appears anywhere.  `savedState` is initialized to PROCESSING_STATE_NONE and
only assigned from the response after the NULL-parameter check, and the
cleanup writes it back whenever the handle is non-null — including the
invalid-parameter early exit.  Result: (status, post-call response, bytes
strncpy'd to pValue). -/
def IotHttpsClient_ReadHeader (respHandle : Option _httpsResponse_t)
    (pName : Option (List Nat)) (pValuePresent : Bool) (len : Nat)
    (events : List HttpParserEvent) :
    IotHttpsReturnCode × Option _httpsResponse_t × Option (List Nat) :=
  match respHandle with
  | none => (IOT_HTTPS_INVALID_PARAMETER, none, none)
  | some resp =>
    if pName.isNone ∨ pValuePresent = false then
      (IOT_HTTPS_INVALID_PARAMETER,
        some { resp with bufferProcessingState := .PROCESSING_STATE_NONE }, none)
    else
      let savedState := resp.bufferProcessingState
      let resp2 := _executeParserEvents (_readHeaderSearchState resp (pName.getD [])) events
      if resp2.foundHeaderField then
        if resp2.readHeaderValueLength > len then
          (IOT_HTTPS_INSUFFICIENT_MEMORY,
            some { resp2 with bufferProcessingState := savedState }, none)
        else
          (IOT_HTTPS_OK, some { resp2 with bufferProcessingState := savedState },
            some (resp2.pReadHeaderValue.getD []))
      else
        (IOT_HTTPS_NOT_FOUND, some { resp2 with bufferProcessingState := savedState }, none)

/-- A response whose driver is currently filling the body buffer. -/
def c8Resp : _httpsResponse_t :=
  { c5Resp with bufferProcessingState := .PROCESSING_STATE_FILLING_BODY_BUFFER }

/-- C8 counterexample: on the early invalid-parameter exit (non-null response,
NULL pName) the cleanup writes back the INITIAL value of `savedState` —
PROCESSING_STATE_NONE — clobbering the response's pre-call
FILLING_BODY_BUFFER state instead of restoring it. -/
theorem readHeader_restore_counterexample :
    (IotHttpsClient_ReadHeader (some c8Resp) none true 10 []).1 =
      IOT_HTTPS_INVALID_PARAMETER ∧
    (IotHttpsClient_ReadHeader (some c8Resp) none true 10 []).2.1 =
      some { c8Resp with bufferProcessingState := .PROCESSING_STATE_NONE } ∧
    c8Resp.bufferProcessingState = .PROCESSING_STATE_FILLING_BODY_BUFFER ∧
    IotHttpsResponseBufferState.PROCESSING_STATE_NONE ≠
      .PROCESSING_STATE_FILLING_BODY_BUFFER := by
  exact ⟨rfl, rfl, rfl, by decide⟩

/-- C8 (amended): with valid (non-null) arguments, `ReadHeader` saves
`bufferProcessingState`, sets it to SEARCHING_HEADER_BUFFER, re-runs the
parser over the stored headers with no network I/O, and restores the saved
state on every exit path AFTER the parameter validation; it returns
`NOT_FOUND` exactly when the search left `foundHeaderField` unset, and
`INSUFFICIENT_MEMORY` when the field was found but the output buffer is
smaller than the value's length (otherwise OK with the value copied out).
On the invalid-parameter exit with a non-null response, however, the state
is overwritten with PROCESSING_STATE_NONE, the initial value of the saved
state. -/
theorem readHeader_search_spec (resp : _httpsResponse_t) (name : List Nat) (len : Nat)
    (events : List HttpParserEvent) :
    ((IotHttpsClient_ReadHeader (some resp) (some name) true len events).2.1.map
        (fun r => r.bufferProcessingState) = some resp.bufferProcessingState) ∧
    ((IotHttpsClient_ReadHeader (some resp) (some name) true len events).1 =
        IOT_HTTPS_NOT_FOUND ↔
      (_executeParserEvents (_readHeaderSearchState resp name) events).foundHeaderField =
        false) ∧
    ((_executeParserEvents (_readHeaderSearchState resp name) events).foundHeaderField =
        true →
      (len < (_executeParserEvents (_readHeaderSearchState resp name)
          events).readHeaderValueLength →
        (IotHttpsClient_ReadHeader (some resp) (some name) true len events).1 =
          IOT_HTTPS_INSUFFICIENT_MEMORY) ∧
      ((_executeParserEvents (_readHeaderSearchState resp name)
          events).readHeaderValueLength ≤ len →
        (IotHttpsClient_ReadHeader (some resp) (some name) true len events).1 =
          IOT_HTTPS_OK ∧
        (IotHttpsClient_ReadHeader (some resp) (some name) true len events).2.2 =
          some ((_executeParserEvents (_readHeaderSearchState resp name)
            events).pReadHeaderValue.getD []))) ∧
    ((IotHttpsClient_ReadHeader (some resp) none true len events).2.1 =
      some { resp with bufferProcessingState := .PROCESSING_STATE_NONE }) := by
  refine ⟨?_, ?_, ?_, rfl⟩
  · simp only [IotHttpsClient_ReadHeader, Option.getD_some]
    rw [if_neg (by simp)]
    split
    · split
      · simp
      · simp
    · simp
  · simp only [IotHttpsClient_ReadHeader, Option.getD_some]
    rw [if_neg (by simp)]
    cases hf : (_executeParserEvents (_readHeaderSearchState resp name) events).foundHeaderField
    · simp [hf]
    · rw [if_pos (by simp [hf])]
      split
      · simp
      · simp
  · intro hfound
    simp only [IotHttpsClient_ReadHeader, Option.getD_some]
    rw [if_neg (by simp)]
    constructor
    · intro hlt
      rw [if_pos (by simp [hfound]), if_pos (by simpa using hlt)]
    · intro hle
      rw [if_pos (by simp [hfound]), if_neg (by omega)]
      exact ⟨rfl, rfl⟩

/-- Witness for the C8 amended theorem: searching for field "X" over events
that contain it with value "12" succeeds with the state restored. -/
theorem readHeader_search_spec_witness :
    (IotHttpsClient_ReadHeader (some c8Resp) (some [88]) true 10
      [.onHeaderField [88], .onHeaderValue [49, 50], .onHeadersComplete 7]).1 =
      IOT_HTTPS_OK ∧
    (IotHttpsClient_ReadHeader (some c8Resp) (some [88]) true 10
      [.onHeaderField [88], .onHeaderValue [49, 50], .onHeadersComplete 7]).2.2 =
      some ((_executeParserEvents (_readHeaderSearchState c8Resp [88])
        [.onHeaderField [88], .onHeaderValue [49, 50], .onHeadersComplete 7]
        ).pReadHeaderValue.getD []) := by
  exact ((readHeader_search_spec c8Resp [88] 10
    [.onHeaderField [88], .onHeaderValue [49, 50], .onHeadersComplete 7]).2.2.1
    (by decide)).2 (by decide)
